import Mathlib

/-
Verification of the address-integrity layer of the phantom-agent repository,
a shallow embedding of src/packages/backend/convex/dataIntegrity.ts.

Modelling conventions:
- JavaScript strings are Lean Strings; toUpperCase and toLowerCase are modelled
  by mapping Char.toUpper and Char.toLower over the characters (the inputs of
  interest are ASCII, where the two notions agree).
- A fetch of a registry endpoint is modelled by a FetchOutcome value held in an
  environment record: netErr stands for a thrown exception (network failure,
  timeout, or a body that fails to parse as JSON), httpErr for a non-ok HTTP
  response, ok for a successful parsed body.
- The Convex table tokenAddressCache is a list of entries; the stateful
  actions become pure functions threading the cache explicitly and returning,
  alongside the outcome, the number of registry HTTP requests issued.
- Date.now() is the field now of the environment; timestamps are Nat, and the
  JavaScript subtraction in the TTL comparison agrees with Nat subtraction on
  the comparison performed (a negative age is never greater than the TTL, and
  neither is the truncated 0).
-/

set_option maxRecDepth 8192

namespace DataIntegrity

/-- Model of JavaScript toUpperCase restricted to ASCII: uppercase every
character of the string. -/
def upperAscii (s : String) : String := ⟨s.data.map Char.toUpper⟩

/-- Model of JavaScript toLowerCase restricted to ASCII: lowercase every
character of the string. -/
def lowerAscii (s : String) : String := ⟨s.data.map Char.toLower⟩

/-- Model of symbol.replace with the regex anchored dollar: remove one leading
dollar sign when present. -/
def stripLeadingDollar (s : String) : String :=
  match s.data with
  | '$' :: rest => ⟨rest⟩
  | _ => s

/-- Symbol normalisation performed at the top of lookupToken:
strip a leading dollar sign, then uppercase. -/
def normaliseSymbol (s : String) : String := upperAscii (stripLeadingDollar s)

/-- Shape of an entry of the Jupiter strict token list. -/
structure JupiterToken where
  address : String
  name : String
  symbol : String
  decimals : Nat
  tags : List String
deriving DecidableEq

/-- Shape of an entry of the CoinGecko coins list. -/
structure CoinGeckoListEntry where
  id : String
  symbol : String
  name : String
deriving DecidableEq

/-- Shape of a CoinGecko coin-detail response; the platforms record becomes an
association list from platform name to contract address. -/
structure CoinGeckoContractDetail where
  id : String
  name : String
  symbol : String
  contract_address : String
  platforms : List (String × String)
deriving DecidableEq

/-- One element of the matches array of a MultipleMatchesResult. -/
structure TokenMatch where
  address : String
  name : String
  symbol : String
deriving DecidableEq

/-- The LookupOutcome union: TokenLookupResult (found with address, found
native, or not found) together with MultipleMatchesResult. -/
inductive LookupOutcome where
  | foundToken (address name symbol chain : String)
  | foundNative (name symbol chain : String)
  | notFound (reason : String)
  | ambiguous (matchList : List TokenMatch)
deriving DecidableEq

/-- The VerifyResult union. -/
inductive VerifyResult where
  | verified (name symbol chain : String)
  | unverified (warning : String)
deriving DecidableEq

/-- Outcome of one fetch call: a thrown exception carrying its message, a
non-ok HTTP status, or a parsed body. -/
inductive FetchOutcome (α : Type) where
  | netErr (err : String)
  | httpErr (status : Nat)
  | ok (body : α)
deriving DecidableEq

/-- One document of the tokenAddressCache table. -/
structure CacheEntry where
  cacheKey : String
  address : String
  name : String
  chain : String
  isNative : Bool
  cachedAt : Nat
deriving DecidableEq

/-- The tokenAddressCache table. -/
abbrev Cache := List CacheEntry

/-- External world of one action invocation: the response each registry
endpoint would give, and the current clock. -/
structure Env where
  jupiter : FetchOutcome (List JupiterToken)
  coinList : FetchOutcome (List CoinGeckoListEntry)
  coinDetail : String → FetchOutcome CoinGeckoContractDetail
  now : Nat

/-- CACHE_TTL_MS constant: 24 hours in milliseconds. -/
def CACHE_TTL_MS : Nat := 24 * 60 * 60 * 1000

/-- The NATIVE_TOKENS record mapping a native symbol to its chain. -/
def NATIVE_TOKENS (s : String) : Option String :=
  if s = "SOL" then some "solana"
  else if s = "ETH" then some "ethereum"
  else if s = "BTC" then some "bitcoin"
  else if s = "SUI" then some "sui"
  else none

/-- Model of the getCacheEntry internal query: return the entry stored under
the key, unless it is absent or older than the TTL. -/
def getCacheEntry (cache : Cache) (cacheKey : String) (now : Nat) : Option CacheEntry :=
  match cache.find? (fun e => e.cacheKey == cacheKey) with
  | none => none
  | some entry => if now - entry.cachedAt > CACHE_TTL_MS then none else some entry

/-- Model of the writeCacheEntry internal mutation: delete the existing entry
under the key when present, then insert the new one. -/
def writeCacheEntry (cache : Cache) (cacheKey address name chain : String)
    (isNative : Bool) (now : Nat) : Cache :=
  let rest : Cache :=
    match cache.find? (fun e => e.cacheKey == cacheKey) with
    | some existing => cache.erase existing
    | none => cache
  rest ++ [⟨cacheKey, address, name, chain, isNative, now⟩]

/-- Reason strings of the lookup paths, as built in the source. -/
def jupiterHttpReason (status : Nat) : String :=
  "Jupiter token registry returned HTTP " ++ toString status ++ ". Try again later."

/-- Reason for a thrown Jupiter fetch. -/
def jupiterNetReason (err : String) : String :=
  "Could not reach the Jupiter token registry: " ++ err

/-- Reason for a symbol absent from the Jupiter strict list. -/
def solanaNoMatchReason (symbol : String) : String :=
  "No token with symbol \"" ++ symbol ++ "\" found in the Jupiter strict token list. If you have the contract address, paste it directly."

/-- Reason for a non-ok CoinGecko list response. -/
def coinGeckoHttpReason (status : Nat) : String :=
  "CoinGecko API returned HTTP " ++ toString status ++ ". Try again later."

/-- Reason for a thrown CoinGecko list fetch. -/
def coinGeckoNetReason (err : String) : String :=
  "Could not reach the CoinGecko API: " ++ err

/-- Reason for a symbol absent from the CoinGecko coin list. -/
def evmNoSymbolReason (symbol : String) : String :=
  "No token with symbol \"" ++ symbol ++ "\" found in CoinGecko. If you have the contract address, paste it directly."

/-- Reason for candidates that all failed to resolve an Ethereum address. -/
def evmNoAddressReason (symbol : String) : String :=
  "Found \"" ++ symbol ++ "\" on CoinGecko but could not resolve an Ethereum contract address. Paste the address directly if you have it."

/-- Model of lookupSolanaToken: one fetch of the Jupiter strict list, filter
by uppercased symbol, then branch on the number of matches. The result is the
outcome, the cache after the call, and the number of registry requests. -/
def lookupSolanaToken (env : Env) (cache : Cache) (symbol cacheKey : String) :
    LookupOutcome × Cache × Nat :=
  match env.jupiter with
  | .httpErr status => (LookupOutcome.notFound (jupiterHttpReason status), cache, 1)
  | .netErr err => (LookupOutcome.notFound (jupiterNetReason err), cache, 1)
  | .ok tokens =>
      let symbolMatches := tokens.filter (fun t => upperAscii t.symbol == symbol)
      match symbolMatches with
      | [] => (LookupOutcome.notFound (solanaNoMatchReason symbol), cache, 1)
      | [token] =>
          (LookupOutcome.foundToken token.address token.name token.symbol "solana",
           writeCacheEntry cache cacheKey token.address token.name "solana" false env.now,
           1)
      | _ =>
          (LookupOutcome.ambiguous (symbolMatches.map (fun t => ⟨t.address, t.name, t.symbol⟩)), cache, 1)

/-- Model of the candidate loop of lookupEvmToken: for each candidate in list
order, fetch its coin detail and keep the ethereum platform address when the
fetch succeeds and that address is present and non-empty; failures and missing
platform entries are skipped. -/
def resolveEvmCandidates (env : Env) : List CoinGeckoListEntry → List TokenMatch
  | [] => []
  | coin :: rest =>
      let tail := resolveEvmCandidates env rest
      match env.coinDetail coin.id with
      | .ok detail =>
          match detail.platforms.lookup "ethereum" with
          | some ethAddress =>
              if ethAddress.length > 0 then
                ⟨ethAddress, detail.name, upperAscii detail.symbol⟩ :: tail
              else tail
          | none => tail
      | .httpErr _ => tail
      | .netErr _ => tail

/-- Model of lookupEvmToken: fetch the CoinGecko coin list, filter by
uppercased symbol, resolve at most 5 candidates through detail fetches, then
branch on the number of resolved addresses. The request counter counts the
list fetch plus one detail fetch per attempted candidate. -/
def lookupEvmToken (env : Env) (cache : Cache) (symbol cacheKey chain : String) :
    LookupOutcome × Cache × Nat :=
  match env.coinList with
  | .httpErr status => (LookupOutcome.notFound (coinGeckoHttpReason status), cache, 1)
  | .netErr err => (LookupOutcome.notFound (coinGeckoNetReason err), cache, 1)
  | .ok coinList =>
      let symbolMatches := coinList.filter (fun c => upperAscii c.symbol == symbol)
      match symbolMatches with
      | [] => (LookupOutcome.notFound (evmNoSymbolReason symbol), cache, 1)
      | _ =>
          let candidates := symbolMatches.take 5
          let resolvedMatches := resolveEvmCandidates env candidates
          let calls := 1 + candidates.length
          match resolvedMatches with
          | [] => (LookupOutcome.notFound (evmNoAddressReason symbol), cache, calls)
          | [token] =>
              (LookupOutcome.foundToken token.address token.name token.symbol chain,
               writeCacheEntry cache cacheKey token.address token.name chain false env.now,
               calls)
          | _ => (LookupOutcome.ambiguous resolvedMatches, cache, calls)

/-- Reason returned by lookupToken for chains with no registry support; it
interpolates the original, un-normalised chain argument. -/
def unsupportedChainReason (chain : String) : String :=
  "Token lookup is not supported for chain \"" ++ chain ++
    "\". Only \"solana\" and \"ethereum\" are supported via registry. For Bitcoin and Sui, use get_wallet_addresses to retrieve your wallet address and request transfers by address."

/-- Model of the lookupToken action: normalise the symbol and chain, take the
native fast path when the symbol is native to the requested chain, otherwise
consult the cache and finally the chain-specific registry path. -/
def lookupToken (env : Env) (cache : Cache) (symbol chain : String) :
    LookupOutcome × Cache × Nat :=
  let normalisedSymbol := normaliseSymbol symbol
  let normalisedChain := lowerAscii chain
  if NATIVE_TOKENS normalisedSymbol == some normalisedChain then
    (LookupOutcome.foundNative normalisedSymbol normalisedSymbol normalisedChain, cache, 0)
  else
    let cacheKey := normalisedChain ++ ":" ++ normalisedSymbol
    match getCacheEntry cache cacheKey env.now with
    | some cached =>
        if cached.isNative then
          (LookupOutcome.foundNative cached.name normalisedSymbol cached.chain, cache, 0)
        else
          (LookupOutcome.foundToken cached.address cached.name normalisedSymbol cached.chain, cache, 0)
    | none =>
        if normalisedChain == "solana" then
          lookupSolanaToken env cache normalisedSymbol cacheKey
        else if normalisedChain == "ethereum" then
          lookupEvmToken env cache normalisedSymbol cacheKey "ethereum"
        else
          (LookupOutcome.notFound (unsupportedChainReason chain), cache, 0)

/-- Decides whether a character is a hexadecimal digit, as accepted by the
character class of the Ethereum address regex. -/
def isHexDigit (c : Char) : Bool :=
  ('0' ≤ c && c ≤ '9') || ('a' ≤ c && c ≤ 'f') || ('A' ≤ c && c ≤ 'F')

/-- Model of the anchored regex test for an Ethereum address: the literal 0x
followed by exactly 40 hexadecimal characters. -/
def isEvmAddressFormat (s : String) : Bool :=
  match s.data with
  | '0' :: 'x' :: rest => rest.length == 40 && rest.all isHexDigit
  | _ => false

/-- Warning returned by verifyAddress for a Solana address of invalid length. -/
def solanaLengthWarning : String :=
  "This does not appear to be a valid Solana address (wrong length). Double-check before proceeding — transactions are irreversible."

/-- Warning returned by verifyAddress for a well-formed Solana address that is
absent from the Jupiter strict list or when the registry is unreachable. -/
def solanaCautionWarning : String :=
  "This address is not in the Jupiter strict token list. This may be a valid but unverified token. Proceed with extreme caution — transactions are irreversible. Only continue if you are certain of this address."

/-- Warning returned by verifyAddress for an Ethereum address that fails the
format regex. -/
def evmFormatInvalidWarning : String :=
  "This does not appear to be a valid Ethereum address. Double-check before proceeding — transactions are irreversible."

/-- Warning returned by verifyAddress for an Ethereum address of valid format,
which is by policy never cross-referenced. -/
def evmFormatValidWarning : String :=
  "This Ethereum address has valid format but is not cross-referenced against CoinGecko. Verify it via a block explorer before proceeding — transactions are irreversible."

/-- Warning returned by verifyAddress for chains without registry support; it
interpolates the original, un-normalised chain argument. -/
def unsupportedVerifyWarning (chain : String) : String :=
  "Address verification against a registry is not available for " ++ chain ++
    ". Verify this address via a block explorer before proceeding — transactions are irreversible."

/-- Model of the verifyAddress action. The second component counts registry
HTTP requests issued by the call. -/
def verifyAddress (env : Env) (address chain : String) : VerifyResult × Nat :=
  let normalisedChain := lowerAscii chain
  if normalisedChain == "solana" then
    if address.length < 32 || address.length > 44 then
      (VerifyResult.unverified solanaLengthWarning, 0)
    else
      match env.jupiter with
      | .ok tokens =>
          match tokens.find? (fun t => lowerAscii t.address == lowerAscii address) with
          | some m => (VerifyResult.verified m.name m.symbol "solana", 1)
          | none => (VerifyResult.unverified solanaCautionWarning, 1)
      | .httpErr _ => (VerifyResult.unverified solanaCautionWarning, 1)
      | .netErr _ => (VerifyResult.unverified solanaCautionWarning, 1)
  else if normalisedChain == "ethereum" then
    if isEvmAddressFormat address then
      (VerifyResult.unverified evmFormatValidWarning, 0)
    else
      (VerifyResult.unverified evmFormatInvalidWarning, 0)
  else
    (VerifyResult.unverified (unsupportedVerifyWarning chain), 0)

/-- Discriminator for the notFound constructor of LookupOutcome. -/
def isNotFound : LookupOutcome → Bool
  | .notFound _ => true
  | _ => false

/-- Discriminator for failed fetches: everything except ok. -/
def fetchFailed {α : Type} : FetchOutcome α → Bool
  | .ok _ => false
  | _ => true

/-- Well-formedness of the cache table: no two documents share a cache key. -/
def keyUnique (cache : Cache) : Prop :=
  cache.Pairwise (fun a b => a.cacheKey ≠ b.cacheKey)

/-- Condition under which the candidate loop of lookupEvmToken skips a
candidate: its detail fetch throws, returns a non-ok status, or succeeds but
carries no non-empty ethereum platform address. -/
def candidateSkipped (env : Env) (coin : CoinGeckoListEntry) : Prop :=
  (∃ e, env.coinDetail coin.id = FetchOutcome.netErr e) ∨
  (∃ st, env.coinDetail coin.id = FetchOutcome.httpErr st) ∨
  (∃ d, env.coinDetail coin.id = FetchOutcome.ok d ∧ d.platforms.lookup "ethereum" = none) ∨
  (∃ d s, env.coinDetail coin.id = FetchOutcome.ok d ∧
    d.platforms.lookup "ethereum" = some s ∧ s.length = 0)

/-- Fixture environment in which every registry endpoint is unreachable. -/
def envDown : Env :=
  ⟨FetchOutcome.netErr "connection refused", FetchOutcome.netErr "connection refused",
   fun _ => FetchOutcome.netErr "connection refused", 0⟩

/-- Fixture environment whose Jupiter strict list holds two distinct tokens
that share the symbol BONK. -/
def envBonk : Env :=
  ⟨FetchOutcome.ok [⟨"addr1", "Bonk", "BONK", 5, []⟩, ⟨"addr2", "Bonk2", "BONK", 5, []⟩],
   FetchOutcome.netErr "connection refused",
   fun _ => FetchOutcome.netErr "connection refused", 77⟩

/-- Fixture environment whose CoinGecko list holds two coins with symbol foo,
of which only the first resolves to an ethereum platform address. -/
def envEvm : Env :=
  ⟨FetchOutcome.netErr "connection refused",
   FetchOutcome.ok [⟨"foo-1", "foo", "Foo One"⟩, ⟨"foo-2", "foo", "Foo Two"⟩],
   fun id => if id == "foo-1" then
       FetchOutcome.ok ⟨"foo-1", "Foo One", "foo", "0xabc", [("ethereum", "0xabc")]⟩
     else FetchOutcome.netErr "connection refused",
   9⟩

/-- Fixture environment whose Jupiter strict list holds one token, used for
the address-verification round trip. -/
def envVerify : Env :=
  ⟨FetchOutcome.ok [⟨"ABCDEFGHabcdefghABCDEFGHabcdefgh", "Example Token", "EXT", 6, []⟩],
   FetchOutcome.netErr "connection refused",
   fun _ => FetchOutcome.netErr "connection refused", 3⟩

end DataIntegrity

namespace DataIntegrity

/-- C1: for every symbol whose normalisation is in the fixed native-asset
table with a chain equal to the lowercased requested chain, lookupToken
returns the Found-Native outcome immediately, leaving the cache unchanged and
issuing zero registry requests — for every cache state and every registry
environment, so the fast path takes priority over cache and registry. -/
theorem native_fast_path (env : Env) (cache : Cache) (symbol chain : String)
    (h : NATIVE_TOKENS (normaliseSymbol symbol) = some (lowerAscii chain)) :
    lookupToken env cache symbol chain =
      (LookupOutcome.foundNative (normaliseSymbol symbol) (normaliseSymbol symbol)
        (lowerAscii chain), cache, 0) := by
  simp [lookupToken, h]

/-- Witness for C1 at the four native table rows, with a registry that is
unreachable and a cache that contains an entry for the queried key, showing
neither is consulted. -/
theorem native_fast_path_witness :
    lookupToken envDown [⟨"solana:SOL", "fake", "Fake", "solana", false, 0⟩] "SOL" "solana" =
      (LookupOutcome.foundNative "SOL" "SOL" "solana",
       [⟨"solana:SOL", "fake", "Fake", "solana", false, 0⟩], 0) ∧
    lookupToken envDown [] "$eth" "Ethereum" =
      (LookupOutcome.foundNative "ETH" "ETH" "ethereum", [], 0) ∧
    lookupToken envDown [] "BTC" "bitcoin" =
      (LookupOutcome.foundNative "BTC" "BTC" "bitcoin", [], 0) ∧
    lookupToken envDown [] "SUI" "sui" =
      (LookupOutcome.foundNative "SUI" "SUI" "sui", [], 0) := by
  refine ⟨?_, ?_, ?_, ?_⟩ <;>
    · rw [native_fast_path _ _ _ _ (by decide)]
      decide

/-- C2 counterexample: the claim says every symbol on chain bitcoin yields a
NotFound outcome, but the native fast path intercepts the symbol BTC and
returns Found-Native, which is not a NotFound outcome. -/
theorem lookup_bitcoin_not_always_notFound :
    isNotFound (lookupToken envDown [] "BTC" "bitcoin").1 = false ∧
    lookupToken envDown [] "BTC" "bitcoin" =
      (LookupOutcome.foundNative "BTC" "BTC" "bitcoin", [], 0) := by
  constructor <;> decide

/-- C2 amended: for a symbol that is not the native asset of the requested
chain and a cache with no fresh entry under the corresponding key, lookupToken
on a chain that lowercases to bitcoin or sui returns NotFound with the
unsupported-chain reason, leaving the cache unchanged and issuing no registry
request. -/
theorem lookup_unsupported_chain (env : Env) (cache : Cache) (symbol chain : String)
    (hchain : lowerAscii chain = "bitcoin" ∨ lowerAscii chain = "sui")
    (hnative : NATIVE_TOKENS (normaliseSymbol symbol) ≠ some (lowerAscii chain))
    (hcache : getCacheEntry cache (lowerAscii chain ++ ":" ++ normaliseSymbol symbol)
      env.now = none) :
    lookupToken env cache symbol chain =
      (LookupOutcome.notFound (unsupportedChainReason chain), cache, 0) := by
  rcases hchain with h | h <;>
    rw [h] at hnative hcache <;>
    simp at hcache <;>
    simp [lookupToken, h, hcache, hnative]

/-- Witness for C2 amended: a non-native symbol on bitcoin with an empty
cache. -/
theorem lookup_unsupported_chain_witness :
    lookupToken envDown [] "DOGE" "bitcoin" =
      (LookupOutcome.notFound (unsupportedChainReason "bitcoin"), [], 0) :=
  lookup_unsupported_chain envDown [] "DOGE" "bitcoin" (Or.inl (by decide))
    (by decide) (by decide)

/-- C10 counterexample: the claim says every call behaves identically to the
call with the lowercased chain, but the unsupported-chain reason interpolates
the original chain spelling, so the outcomes differ for chain Bitcoin versus
bitcoin. -/
theorem chain_not_fully_case_insensitive :
    lookupToken envDown [] "WBTC" "Bitcoin" ≠ lookupToken envDown [] "WBTC" "bitcoin" := by
  decide

/-- C10 amended: for chains that lowercase to solana or ethereum, both
lookupToken and verifyAddress return the same outcome as the call with the
lowercased chain string; for other chains only the interpolated reason or
warning text can differ. -/
theorem chain_lowercase_invariant (env : Env) (cache : Cache)
    (symbol address chain : String)
    (h : lowerAscii chain = "solana" ∨ lowerAscii chain = "ethereum") :
    lookupToken env cache symbol chain = lookupToken env cache symbol (lowerAscii chain) ∧
    verifyAddress env address chain = verifyAddress env address (lowerAscii chain) := by
  rcases h with h | h <;>
    refine ⟨?_, ?_⟩ <;>
      simp [lookupToken, verifyAddress, h,
        show lowerAscii "solana" = "solana" from by decide,
        show lowerAscii "ethereum" = "ethereum" from by decide]

/-- Witness for C10 amended at a mixed-case solana chain string. -/
theorem chain_lowercase_invariant_witness :
    lookupToken envDown [] "USDC" "SoLaNa" = lookupToken envDown [] "USDC" (lowerAscii "SoLaNa") ∧
    verifyAddress envDown "0x12" "SoLaNa" = verifyAddress envDown "0x12" (lowerAscii "SoLaNa") :=
  chain_lowercase_invariant envDown [] "USDC" "0x12" "SoLaNa" (Or.inl (by decide))

/-- C4: on a chain that lowercases to ethereum, verifyAddress never returns a
Verified outcome and never issues a registry request: an address failing the
0x-plus-40-hex pattern yields Unverified with the format warning, and an
address matching it still yields Unverified with the valid-format,
uncross-referenced warning, for every registry environment. -/
theorem verify_ethereum_never_verified (env : Env) (address chain : String)
    (hchain : lowerAscii chain = "ethereum") :
    (isEvmAddressFormat address = false →
      verifyAddress env address chain = (VerifyResult.unverified evmFormatInvalidWarning, 0)) ∧
    (isEvmAddressFormat address = true →
      verifyAddress env address chain = (VerifyResult.unverified evmFormatValidWarning, 0)) := by
  constructor <;> intro hfmt <;> simp [verifyAddress, hchain, hfmt]

/-- Witness for C4 at a malformed and at a well-formed Ethereum address. -/
theorem verify_ethereum_never_verified_witness :
    verifyAddress envDown "not-an-address" "ethereum" =
      (VerifyResult.unverified evmFormatInvalidWarning, 0) ∧
    verifyAddress envDown "0x0123456789abcdefABCDEF0123456789abcdefAB" "Ethereum" =
      (VerifyResult.unverified evmFormatValidWarning, 0) :=
  ⟨(verify_ethereum_never_verified envDown "not-an-address" "ethereum" (by decide)).1
      (by decide),
   (verify_ethereum_never_verified envDown "0x0123456789abcdefABCDEF0123456789abcdefAB"
      "Ethereum" (by decide)).2 (by decide)⟩

/-- C3: on the Solana registry path with a reachable registry, zero
case-insensitive symbol matches yield NotFound with the paste-the-address
reason and an unchanged cache; exactly one match yields Found-Token with that
entry and the cache extended by the write; two or more matches yield Ambiguous
carrying every match, with the cache unchanged. -/
theorem solana_lookup_branches (env : Env) (cache : Cache) (symbol cacheKey : String)
    (tokens symbolMatches : List JupiterToken)
    (hreg : env.jupiter = FetchOutcome.ok tokens)
    (hm : tokens.filter (fun t => upperAscii t.symbol == symbol) = symbolMatches) :
    (symbolMatches = [] →
      lookupSolanaToken env cache symbol cacheKey =
        (LookupOutcome.notFound (solanaNoMatchReason symbol), cache, 1)) ∧
    (∀ t, symbolMatches = [t] →
      lookupSolanaToken env cache symbol cacheKey =
        (LookupOutcome.foundToken t.address t.name t.symbol "solana",
         writeCacheEntry cache cacheKey t.address t.name "solana" false env.now, 1)) ∧
    (∀ t₁ t₂ rest, symbolMatches = t₁ :: t₂ :: rest →
      lookupSolanaToken env cache symbol cacheKey =
        (LookupOutcome.ambiguous (symbolMatches.map (fun t => ⟨t.address, t.name, t.symbol⟩)),
         cache, 1)) := by
  refine ⟨?_, ?_, ?_⟩
  · intro h
    simp [lookupSolanaToken, hreg, hm, h]
  · intro t h
    simp [lookupSolanaToken, hreg, hm, h]
  · intro t₁ t₂ rest h
    simp [lookupSolanaToken, hreg, hm, h]

/-- Witness for C3: two fixture tokens both named BONK produce the Ambiguous
outcome listing both addresses with no cache write, matching the fixture test
of the specification. -/
theorem solana_lookup_branches_witness :
    lookupSolanaToken envBonk [] "BONK" "solana:BONK" =
      (LookupOutcome.ambiguous [⟨"addr1", "Bonk", "BONK"⟩, ⟨"addr2", "Bonk2", "BONK"⟩],
       [], 1) := by
  rw [(solana_lookup_branches envBonk [] "BONK" "solana:BONK"
      [⟨"addr1", "Bonk", "BONK", 5, []⟩, ⟨"addr2", "Bonk2", "BONK", 5, []⟩]
      [⟨"addr1", "Bonk", "BONK", 5, []⟩, ⟨"addr2", "Bonk2", "BONK", 5, []⟩]
      rfl (by decide)).2.2 ⟨"addr1", "Bonk", "BONK", 5, []⟩ ⟨"addr2", "Bonk2", "BONK", 5, []⟩
      [] rfl]
  decide

/-- Helper: the Solana lookup path issues exactly one registry request in
every branch. -/
theorem lookupSolanaToken_calls (env : Env) (cache : Cache) (s k : String) :
    (lookupSolanaToken env cache s k).2.2 = 1 := by
  unfold lookupSolanaToken
  cases henv : env.jupiter with
  | netErr e => rfl
  | httpErr st => rfl
  | ok tokens =>
      cases hm : tokens.filter (fun t => upperAscii t.symbol == s) with
      | nil => simp [hm]
      | cons a t => cases t <;> simp [hm]

/-- C5: an entry whose age at read time exceeds the 24-hour TTL is never
returned as a cache hit — getCacheEntry yields none for it while leaving it
stored — and a Solana lookup for that key therefore falls through to the
registry path, issuing one fresh registry request. -/
theorem stale_cache_entry_ignored (cache : Cache) (e : CacheEntry) (key : String)
    (env : Env) (symbol chain : String)
    (hfind : cache.find? (fun x => x.cacheKey == key) = some e)
    (hstale : env.now - e.cachedAt > CACHE_TTL_MS)
    (hchain : lowerAscii chain = "solana")
    (hnative : NATIVE_TOKENS (normaliseSymbol symbol) ≠ some "solana")
    (hkey : key = "solana:" ++ normaliseSymbol symbol) :
    getCacheEntry cache key env.now = none ∧
    lookupToken env cache symbol chain =
      lookupSolanaToken env cache (normaliseSymbol symbol) key ∧
    (lookupToken env cache symbol chain).2.2 = 1 := by
  have hmiss : getCacheEntry cache key env.now = none := by
    simp [getCacheEntry, hfind, hstale]
  have hlook : lookupToken env cache symbol chain =
      lookupSolanaToken env cache (normaliseSymbol symbol) key := by
    rw [hkey] at hmiss
    simp [lookupToken, hchain, hnative, hmiss, hkey]
  exact ⟨hmiss, hlook, by rw [hlook]; exact lookupSolanaToken_calls env cache _ _⟩

/-- Witness for C5: an entry cached at time 0 read 25 hours later is a miss
and the lookup proceeds to the registry. -/
theorem stale_cache_entry_ignored_witness :
    getCacheEntry [⟨"solana:USDC", "addr", "USD Coin", "solana", false, 0⟩] "solana:USDC"
      90000000 = none ∧
    lookupToken ⟨FetchOutcome.netErr "connection refused", FetchOutcome.netErr "connection refused",
        fun _ => FetchOutcome.netErr "connection refused", 90000000⟩
      [⟨"solana:USDC", "addr", "USD Coin", "solana", false, 0⟩] "USDC" "solana" =
      lookupSolanaToken ⟨FetchOutcome.netErr "connection refused", FetchOutcome.netErr "connection refused",
        fun _ => FetchOutcome.netErr "connection refused", 90000000⟩
      [⟨"solana:USDC", "addr", "USD Coin", "solana", false, 0⟩] "USDC" "solana:USDC" ∧
    (lookupToken ⟨FetchOutcome.netErr "connection refused", FetchOutcome.netErr "connection refused",
        fun _ => FetchOutcome.netErr "connection refused", 90000000⟩
      [⟨"solana:USDC", "addr", "USD Coin", "solana", false, 0⟩] "USDC" "solana").2.2 = 1 := by
  have h := stale_cache_entry_ignored
    [⟨"solana:USDC", "addr", "USD Coin", "solana", false, 0⟩]
    ⟨"solana:USDC", "addr", "USD Coin", "solana", false, 0⟩ "solana:USDC"
    ⟨FetchOutcome.netErr "connection refused", FetchOutcome.netErr "connection refused",
      fun _ => FetchOutcome.netErr "connection refused", 90000000⟩
    "USDC" "solana" (by decide) (by decide) (by decide) (by decide) (by decide)
  exact ⟨h.1, by rw [h.2.1]; decide, h.2.2⟩

/-- C7: registry failures are absorbed into the failure branch of the outcome
type — a thrown fetch or non-ok response on the Jupiter or CoinGecko list
endpoints makes the Solana and Ethereum lookup paths return NotFound with a
reason, cache untouched, and makes Solana verification of a length-valid
address return Unverified with a warning; totality over every input holds by
construction of the embedding, every branch producing a defined outcome. -/
theorem registry_failure_absorbed (env : Env) (cache : Cache)
    (symbol cacheKey address : String)
    (hj : fetchFailed env.jupiter = true)
    (hc : fetchFailed env.coinList = true)
    (hlo : 32 ≤ address.length) (hhi : address.length ≤ 44) :
    (∃ r, lookupSolanaToken env cache symbol cacheKey =
      (LookupOutcome.notFound r, cache, 1)) ∧
    (∃ r, lookupEvmToken env cache symbol cacheKey "ethereum" =
      (LookupOutcome.notFound r, cache, 1)) ∧
    (∃ w, verifyAddress env address "solana" = (VerifyResult.unverified w, 1)) := by
  refine ⟨?_, ?_, ?_⟩
  · cases h : env.jupiter with
    | netErr e => exact ⟨jupiterNetReason e, by simp [lookupSolanaToken, h]⟩
    | httpErr st => exact ⟨jupiterHttpReason st, by simp [lookupSolanaToken, h]⟩
    | ok b => rw [h] at hj; simp [fetchFailed] at hj
  · cases h : env.coinList with
    | netErr e => exact ⟨coinGeckoNetReason e, by simp [lookupEvmToken, h]⟩
    | httpErr st => exact ⟨coinGeckoHttpReason st, by simp [lookupEvmToken, h]⟩
    | ok b => rw [h] at hc; simp [fetchFailed] at hc
  · refine ⟨solanaCautionWarning, ?_⟩
    have hlen : (address.length < 32 || address.length > 44) = false := by
      simp [Nat.not_lt.mpr hlo, Nat.not_lt.mpr hhi]
    cases h : env.jupiter with
    | netErr e =>
        simp [verifyAddress, show lowerAscii "solana" = "solana" from by decide, hlen, h]
    | httpErr st =>
        simp [verifyAddress, show lowerAscii "solana" = "solana" from by decide, hlen, h]
    | ok b => rw [h] at hj; simp [fetchFailed] at hj

/-- Witness for C7 with every endpoint down and a 32-character address. -/
theorem registry_failure_absorbed_witness :
    (∃ r, lookupSolanaToken envDown [] "USDC" "solana:USDC" =
      (LookupOutcome.notFound r, [], 1)) ∧
    (∃ r, lookupEvmToken envDown [] "USDC" "ethereum:USDC" "ethereum" =
      (LookupOutcome.notFound r, [], 1)) ∧
    (∃ w, verifyAddress envDown "abcdefghabcdefghabcdefghabcdefgh" "solana" =
      (VerifyResult.unverified w, 1)) :=
  registry_failure_absorbed envDown [] "USDC" "solana:USDC"
    "abcdefghabcdefghabcdefghabcdefgh" (by decide) (by decide) (by decide) (by decide)

/-- C8: Solana address verification rejects an address of length outside 32
to 44 characters with the length warning and no registry request; for an
address in range it matches the address field of the Jupiter strict list
case-insensitively, returning Verified with the matched name and symbol on a
hit and Unverified with the caution warning on a miss or registry failure,
each after one registry request. -/
theorem verify_solana_branches (env : Env) (address : String) :
    ((address.length < 32 ∨ address.length > 44) →
      verifyAddress env address "solana" = (VerifyResult.unverified solanaLengthWarning, 0)) ∧
    (32 ≤ address.length → address.length ≤ 44 →
      (∀ tokens t, env.jupiter = FetchOutcome.ok tokens →
        tokens.find? (fun x => lowerAscii x.address == lowerAscii address) = some t →
        verifyAddress env address "solana" = (VerifyResult.verified t.name t.symbol "solana", 1)) ∧
      (∀ tokens, env.jupiter = FetchOutcome.ok tokens →
        tokens.find? (fun x => lowerAscii x.address == lowerAscii address) = none →
        verifyAddress env address "solana" = (VerifyResult.unverified solanaCautionWarning, 1)) ∧
      (fetchFailed env.jupiter = true →
        verifyAddress env address "solana" = (VerifyResult.unverified solanaCautionWarning, 1))) := by
  have hsol : lowerAscii "solana" = "solana" := by decide
  constructor
  · intro h
    have hlen : (address.length < 32 || address.length > 44) = true := by
      rcases h with h | h <;> simp [h]
    simp [verifyAddress, hsol, hlen]
  · intro hlo hhi
    have hlen : (address.length < 32 || address.length > 44) = false := by
      simp [Nat.not_lt.mpr hlo, Nat.not_lt.mpr hhi]
    refine ⟨?_, ?_, ?_⟩
    · intro tokens t hreg hfind
      simp [verifyAddress, hsol, hlen, hreg, hfind]
    · intro tokens hreg hfind
      simp [verifyAddress, hsol, hlen, hreg, hfind]
    · intro hfail
      cases h : env.jupiter with
      | netErr e => simp [verifyAddress, hsol, hlen, h]
      | httpErr st => simp [verifyAddress, hsol, hlen, h]
      | ok b => rw [h] at hfail; simp [fetchFailed] at hfail

/-- Witness for C8: a 10-character address is rejected on length alone, and an
in-range address matching a stored token under different letter case is
Verified with that token name and symbol. -/
theorem verify_solana_branches_witness :
    verifyAddress envVerify "abcdefghij" "solana" =
      (VerifyResult.unverified solanaLengthWarning, 0) ∧
    verifyAddress envVerify "abcdefghABCDEFGHabcdefghABCDEFGH" "solana" =
      (VerifyResult.verified "Example Token" "EXT" "solana", 1) :=
  ⟨(verify_solana_branches envVerify "abcdefghij").1 (Or.inl (by decide)),
   ((verify_solana_branches envVerify "abcdefghABCDEFGHabcdefghABCDEFGH").2
      (by decide) (by decide)).1
      [⟨"ABCDEFGHabcdefghABCDEFGHabcdefgh", "Example Token", "EXT", 6, []⟩]
      ⟨"ABCDEFGHabcdefghABCDEFGHabcdefgh", "Example Token", "EXT", 6, []⟩
      rfl (by decide)⟩

/-- C6: on the Ethereum registry path with a reachable coin list and a
non-empty set of symbol matches, at most 5 candidates in list order receive a
detail fetch (the request counter is one list fetch plus one per capped
candidate); a candidate whose detail fetch fails or that lacks a non-empty
ethereum platform address is skipped without aborting the loop; and zero
resolved addresses yield NotFound, exactly one yields the cache write plus
Found-Token, and more than one yields Ambiguous with no cache write. -/
theorem evm_lookup_branches (env : Env) (cache : Cache) (symbol cacheKey : String)
    (coinList symbolMatches : List CoinGeckoListEntry) (resolved : List TokenMatch)
    (hreg : env.coinList = FetchOutcome.ok coinList)
    (hm : coinList.filter (fun c => upperAscii c.symbol == symbol) = symbolMatches)
    (hne : symbolMatches ≠ [])
    (hres : resolveEvmCandidates env (symbolMatches.take 5) = resolved) :
    (symbolMatches.take 5).length ≤ 5 ∧
    (lookupEvmToken env cache symbol cacheKey "ethereum").2.2 =
      1 + (symbolMatches.take 5).length ∧
    (∀ coin rest, candidateSkipped env coin →
      resolveEvmCandidates env (coin :: rest) = resolveEvmCandidates env rest) ∧
    (resolved = [] →
      lookupEvmToken env cache symbol cacheKey "ethereum" =
        (LookupOutcome.notFound (evmNoAddressReason symbol), cache,
         1 + (symbolMatches.take 5).length)) ∧
    (∀ t, resolved = [t] →
      lookupEvmToken env cache symbol cacheKey "ethereum" =
        (LookupOutcome.foundToken t.address t.name t.symbol "ethereum",
         writeCacheEntry cache cacheKey t.address t.name "ethereum" false env.now,
         1 + (symbolMatches.take 5).length)) ∧
    (∀ t₁ t₂ rest, resolved = t₁ :: t₂ :: rest →
      lookupEvmToken env cache symbol cacheKey "ethereum" =
        (LookupOutcome.ambiguous resolved, cache,
         1 + (symbolMatches.take 5).length)) := by
  obtain ⟨m, ms, rfl⟩ : ∃ m ms, symbolMatches = m :: ms :=
    match symbolMatches, hne with
    | m :: ms, _ => ⟨m, ms, rfl⟩
  refine ⟨?_, ?_, ?_, ?_, ?_, ?_⟩
  · exact le_trans (List.length_take_le 5 _) (le_refl 5)
  · cases hr : resolved with
    | nil =>
        rw [hr] at hres
        simp at hres
        simp [lookupEvmToken, hreg, hm, hres]
    | cons t ts =>
        cases ts with
        | nil =>
            rw [hr] at hres
            simp at hres
            simp [lookupEvmToken, hreg, hm, hres]
        | cons t₂ ts₂ =>
            rw [hr] at hres
            simp at hres
            simp [lookupEvmToken, hreg, hm, hres]
  · intro coin rest hskip
    rcases hskip with ⟨e, he⟩ | ⟨st, hst⟩ | ⟨d, hd, hpl⟩ | ⟨d, str, hd, hpl, hlen⟩
    · simp [resolveEvmCandidates, he]
    · simp [resolveEvmCandidates, hst]
    · simp [resolveEvmCandidates, hd, hpl]
    · simp [resolveEvmCandidates, hd, hpl, hlen]
  · intro h
    rw [h] at hres
    simp at hres
    simp [lookupEvmToken, hreg, hm, hres]
  · intro t h
    rw [h] at hres
    simp at hres
    simp [lookupEvmToken, hreg, hm, hres]
  · intro t₁ t₂ rest h
    rw [h] at hres
    simp at hres
    simp [lookupEvmToken, hreg, hm, hres, h]

/-- Witness for C6: two matching candidates, of which the second detail fetch
fails and is skipped, resolve to a single address that is cached and
returned, after one list fetch and two detail fetches. -/
theorem evm_lookup_branches_witness :
    lookupEvmToken envEvm [] "FOO" "ethereum:FOO" "ethereum" =
      (LookupOutcome.foundToken "0xabc" "Foo One" "FOO" "ethereum",
       [⟨"ethereum:FOO", "0xabc", "Foo One", "ethereum", false, 9⟩], 3) := by
  have h := (evm_lookup_branches envEvm [] "FOO" "ethereum:FOO"
      [⟨"foo-1", "foo", "Foo One"⟩, ⟨"foo-2", "foo", "Foo Two"⟩]
      [⟨"foo-1", "foo", "Foo One"⟩, ⟨"foo-2", "foo", "Foo Two"⟩]
      [⟨"0xabc", "Foo One", "FOO"⟩]
      rfl (by decide) (by decide) (by decide)).2.2.2.2.1
      ⟨"0xabc", "Foo One", "FOO"⟩ rfl
  rw [h]
  decide

/-- Helper: in a key-unique cache, after erasing the entry found under a key,
no remaining entry carries that key. -/
theorem erase_of_found_has_no_key (cache : Cache) (k : String) (ex : CacheEntry)
    (hu : keyUnique cache)
    (hf : cache.find? (fun e => e.cacheKey == k) = some ex) :
    ∀ x ∈ cache.erase ex, (x.cacheKey == k) = false := by
  induction cache with
  | nil => simp at hf
  | cons c cs ih =>
      rw [keyUnique, List.pairwise_cons] at hu
      by_cases h : (c.cacheKey == k) = true
      · simp only [List.find?_cons, h] at hf
        injection hf with hf
        subst hf
        rw [List.erase_cons_head]
        intro x hx
        have hck : c.cacheKey = k := by simpa using h
        have hne := hu.1 x hx
        rw [beq_eq_false_iff_ne]
        intro hxk
        exact hne (hck.trans hxk.symm)
      · rw [Bool.not_eq_true] at h
        simp only [List.find?_cons, h] at hf
        have hex : (ex.cacheKey == k) = true := by
          have h2 := List.find?_some hf
          simpa using h2
        have hcex : (c == ex) = false := by
          rw [beq_eq_false_iff_ne]
          intro hce
          rw [hce, hex] at h
          exact Bool.true_eq_false.mp h
        rw [List.erase_cons_tail]
        · intro x hx
          rcases List.mem_cons.mp hx with rfl | hx'
          · exact h
          · exact ih hu.2 hf x hx'
        · simp [hcex]

/-- Helper: a cache write produces a prefix free of the written key followed
by the new entry, with the prefix a sublist of the original cache. -/
theorem writeCacheEntry_rest (cache : Cache) (key address name chain : String)
    (isNative : Bool) (wtime : Nat) (hu : keyUnique cache) :
    ∃ rest, writeCacheEntry cache key address name chain isNative wtime =
        rest ++ [⟨key, address, name, chain, isNative, wtime⟩] ∧
      (∀ x ∈ rest, (x.cacheKey == key) = false) ∧
      rest.Sublist cache := by
  cases hf : cache.find? (fun e => e.cacheKey == key) with
  | none =>
      refine ⟨cache, ?_, ?_, List.Sublist.refl cache⟩
      · simp [writeCacheEntry, hf]
      · intro x hx
        simpa using List.find?_eq_none.mp hf x hx
  | some ex =>
      refine ⟨cache.erase ex, ?_, erase_of_found_has_no_key cache key ex hu hf,
        List.erase_sublist ex cache⟩
      simp [writeCacheEntry, hf]

/-- C9: in a key-unique cache, writing an entry and reading the same key back
within the TTL returns exactly the written address, name, chain and native
flag; after the write the cache holds exactly one entry under that key and
remains key-unique, so a write overwrites rather than appends. -/
theorem cache_write_round_trip (cache : Cache) (key address name chain : String)
    (isNative : Bool) (wtime rtime : Nat)
    (hu : keyUnique cache)
    (hfresh : rtime - wtime ≤ CACHE_TTL_MS) :
    getCacheEntry (writeCacheEntry cache key address name chain isNative wtime) key rtime =
      some ⟨key, address, name, chain, isNative, wtime⟩ ∧
    List.countP (fun e => e.cacheKey == key)
      (writeCacheEntry cache key address name chain isNative wtime) = 1 ∧
    keyUnique (writeCacheEntry cache key address name chain isNative wtime) := by
  obtain ⟨rest, heq, hkeys, hsub⟩ :=
    writeCacheEntry_rest cache key address name chain isNative wtime hu
  have hnone : rest.find? (fun e => e.cacheKey == key) = none :=
    List.find?_eq_none.mpr (fun x hx => by simp [hkeys x hx])
  have hfind : List.find? (fun e => e.cacheKey == key)
      (rest ++ [(⟨key, address, name, chain, isNative, wtime⟩ : CacheEntry)]) =
      some ⟨key, address, name, chain, isNative, wtime⟩ := by
    rw [List.find?_append, hnone]
    simp
  refine ⟨?_, ?_, ?_⟩
  · rw [heq]
    unfold getCacheEntry
    rw [hfind]
    simp [Nat.not_lt.mpr hfresh]
  · rw [heq, List.countP_append]
    have h0 : rest.countP (fun e => e.cacheKey == key) = 0 :=
      List.countP_eq_zero.mpr (fun x hx => by simp [hkeys x hx])
    simp [h0]
  · rw [heq, keyUnique, List.pairwise_append]
    refine ⟨List.Pairwise.sublist hsub hu, by simp, ?_⟩
    intro a ha b hb
    rcases List.mem_singleton.mp hb with rfl
    have hane := hkeys a ha
    rw [beq_eq_false_iff_ne] at hane
    exact hane

/-- Witness for C9: overwriting into a cache holding one other entry and
reading back 100 milliseconds later. -/
theorem cache_write_round_trip_witness :
    getCacheEntry (writeCacheEntry [⟨"solana:OLD", "x", "y", "solana", false, 0⟩]
        "solana:USDC" "addr" "USD Coin" "solana" false 100) "solana:USDC" 200 =
      some ⟨"solana:USDC", "addr", "USD Coin", "solana", false, 100⟩ ∧
    List.countP (fun e => e.cacheKey == "solana:USDC")
      (writeCacheEntry [⟨"solana:OLD", "x", "y", "solana", false, 0⟩]
        "solana:USDC" "addr" "USD Coin" "solana" false 100) = 1 ∧
    keyUnique (writeCacheEntry [⟨"solana:OLD", "x", "y", "solana", false, 0⟩]
        "solana:USDC" "addr" "USD Coin" "solana" false 100) :=
  cache_write_round_trip [⟨"solana:OLD", "x", "y", "solana", false, 0⟩]
    "solana:USDC" "addr" "USD Coin" "solana" false 100 200
    (by simp [keyUnique]) (by decide)

end DataIntegrity
